import Mathlib

/-!
# Verification of setup/linux_agent_installation.py

Shallow embedding of the installer script `setup/linux_agent_installation.py`
of pattoo-agents-os.  The script reads a handful of OS facts (invoking user,
working directory, the `pattoo` entry of the user database, importability of
virtualenv) and performs a sequence of observable actions: log messages,
stdout/stderr writes, shell-script executions and calls to the three external
installation collaborators (`configure.install`, `packages.install`,
`systemd.install`) plus `environment.environment_setup`.

The embedding makes the OS facts a record `SysState` and every run a pure
function returning the ordered list of emitted `Event`s together with the
terminal `Outcome` (normal return, `sys.exit(code)`, or a propagated
exception).  External collaborator calls may raise in the real program; this
is modelled by per-collaborator failure flags in `SysState`: the call event is
recorded and, when its flag is set, the run ends with `Outcome.raised` —
mirroring that the script catches nothing around these calls.

The argparse surface (one `install` subcommand whose `qualifier` subparsers
are `all`, `pip`, `configuration`, `systemd`, with a `--verbose` store_true
flag on `all` and `pip`) is modelled by `parse_args` on the argument vector
after the program name.  The model covers the grammar this parser accepts:
positional qualifier words and the `--verbose` flag in the position the
claims exercise; `argparse` option handling such as `-h` is outside the
model, so theorems about unrecognized qualifiers restrict to words that do
not begin with a dash.  `argparse`'s generated help text is represented by
the abstract constant `help_text`; `_Parser.error` (source lines 47-62)
writes `"\nERROR: <message>\n\n"` to stderr, prints the help to **stdout**
(`self.print_help()` with no file argument) and exits with status 2, and
`Parser.args` (lines 102-104) prints the help to stderr and exits with
status 1 when the argument vector is empty.

The module `_pattoo_agent_linux/shared.py` belongs to this repository but is
not under src/; its `log` and `run_script` helpers are modelled from the
spec (see `sharedLog`).
-/

/-- Observable actions of a run of the installer, in program order. -/
inductive Event where
  | log (msg : String)
  | stdout (msg : String)
  | stderr (msg : String)
  | runScript (cmd : String)
  | environmentSetup (venvDir : String)
  | configureInstall (daemons : List String) (home : String)
  | packagesInstall (root venv : String) (verbose : Bool)
  | systemdInstall (daemons : List String) (templateDir installationDir : String)
deriving Repr, DecidableEq

/-- How a run ends: normal return from `main`, `sys.exit code`, or an
uncaught exception from a collaborator call. -/
inductive Outcome where
  | normal
  | exited (code : Nat)
  | raised
deriving Repr, DecidableEq

/-- A complete run: the emitted events in order, and the terminal outcome. -/
structure Run where
  trace : List Event
  outcome : Outcome
deriving Repr, DecidableEq

/-- The OS facts the script reads, plus success flags for the external
collaborator calls (the script wraps none of them in try/except, so a
failing call propagates and aborts the run). -/
structure SysState where
  /-- Result of `getpass.getuser()`. -/
  user : String
  /-- Result of `os.getcwd()`. -/
  cwd : String
  /-- Result of `os.path.expanduser` on the tilde. -/
  homeEnv : String
  /-- Value of `ROOT_DIR` computed in the module prologue (lines 11-12). -/
  rootDir : String
  /-- Result of `pwd.getpwnam` for `pattoo`, its `pw_dir`; `none` when the lookup raises KeyError. -/
  pattooPwDir : Option String
  /-- whether `import virtualenv` succeeds -/
  virtualenvInstalled : Bool
  /-- Set to `false` when `environment.environment_setup` returns without error. -/
  environmentFails : Bool
  /-- Set to `false` when `configure.install` returns without error. -/
  configureFails : Bool
  /-- Set to `false` when `packages.install` returns without error. -/
  packagesFails : Bool
  /-- Set to `false` when `systemd.install` returns without error. -/
  systemdFails : Bool
deriving Repr, DecidableEq

/-- Python's `str.startswith`, as a comparison of character sequences
(kernel-computable, unlike `String.startsWith`). -/
def strStartsWith (s p : String) : Bool := p.data.isPrefixOf s.data

/-- Python's `str.endswith`, as a comparison of character sequences. -/
def strEndsWith (s p : String) : Bool := p.data.isSuffixOf s.data

/-- Model of `os.path.join a b` for one relative or absolute component `b`. -/
def osPathJoin (a b : String) : String :=
  if strStartsWith b "/" then b
  else if a = "" ∨ strEndsWith a "/" then a ++ b
  else a ++ "/" ++ b

/-- Constant `default_path` (source lines 31-32): the per-user pip target directory. -/
def default_path (s : SysState) : String :=
  s.homeEnv ++ "/.local/lib/python3.6/site-packages"

/-- Constant `daemon_list` (source lines 287-291). -/
def daemon_list : List String :=
  ["pattoo_agent_linux_autonomousd", "pattoo_agent_linux_spoked",
   "pattoo_agent_linux_hubd"]

/-- Message logged when the invoking user is not root (source lines 233-234;
the trailing backslash in the Python literal joins the two lines with no
space). -/
def root_log_msg : String :=
  "You are currently not running the script as root.Run as root to continue"

/-- Message logged when the working directory is under /home
(source lines 237-239). -/
def homedir_log_msg : String :=
  "You cloned the repository in a home related directory, please clone in a non-home directory to continue"

/-- Modelled from the spec: `shared.log` of `_pattoo_agent_linux/shared.py`
is repository code that is not under src/.  Spec section 4.2 states that the
prerequisite checker "Fails (logs and — per source behavior — continues
without halting ...)", so `log` records its message and control continues. -/
def sharedLog (msg : String) : List Event := [Event.log msg]

/-- Function `installation_checks` (source lines 217-247).  For a non-travis user it
logs when the user is not root, logs when the working directory is under
/home, and when virtualenv is not importable prints a notice and runs
`pip3 install virtualenv -t <default_path>` via `shared.run_script`
(modelled from the spec as an opaque side effect, recorded as an event). -/
def installation_checks (s : SysState) : List Event :=
  if s.user ≠ "travis" then
    (if s.user ≠ "root" then sharedLog root_log_msg else []) ++
    (if strStartsWith s.cwd "/home" then sharedLog homedir_log_msg else []) ++
    (if s.virtualenvInstalled then []
     else [Event.stdout "virtualenv is not installed. Installing virtualenv",
           Event.runScript ("pip3 install virtualenv -t " ++ default_path s)])
  else []

/-- Function `get_pattoo_home` (source lines 250-271): the `pw_dir` of the `pattoo`
user, with `/home/pattoo` substituted when the lookup raises KeyError
(modelled by `none`) or when the stored home directory is `/nonexistent`.
The source catches the only exception the lookup can raise, which is why the
model is a total function. -/
def get_pattoo_home (pwDir : Option String) : String :=
  let pattoo_home :=
    match pwDir with
    | some d => d
    | none => "/home/pattoo"
  if pattoo_home = "/nonexistent" then "/home/pattoo" else pattoo_home

/-- Value `pattoo_home` as computed in `main` (source lines 297-305): resolved via
`get_pattoo_home` for ordinary users, `~/pattoo` for travis. -/
def pattoo_home_of (s : SysState) : String :=
  if s.user ≠ "travis" then get_pattoo_home s.pattooPwDir
  else osPathJoin s.homeEnv "pattoo"

/-- Value `venv_dir` as computed in `main` (source lines 299, 306). -/
def venv_dir_of (s : SysState) : String :=
  if s.user ≠ "travis" then osPathJoin (pattoo_home_of s) "pattoo-venv"
  else default_path s

/-- Value `installation_dir` as computed in `main` (source lines 301-302, 307):
`"<venv>/bin/python3 <ROOT_DIR>"` for ordinary users, `ROOT_DIR` for
travis. -/
def installation_dir_of (s : SysState) : String :=
  if s.user ≠ "travis" then
    osPathJoin (venv_dir_of s) "bin/python3" ++ " " ++ s.rootDir
  else s.rootDir

/-- Value `template_dir` (source line 286). -/
def template_dir_of (s : SysState) : String :=
  osPathJoin s.rootDir "setup/systemd/system"

/-- Result of the pre-CLI phase of `main` (lines 293-307): the events it
emitted and whether `environment.environment_setup` raised. -/
structure SetupResult where
  events : List Event
  aborted : Bool
deriving Repr, DecidableEq

/-- Lines 293-307 of `main`: run `installation_checks`, then for a
non-travis user call `environment.environment_setup venv_dir` (which may
raise); for travis only the directory defaults are set, with no call. -/
def setup_phase (s : SysState) : SetupResult :=
  let checks := installation_checks s
  if s.user ≠ "travis" then
    { events := checks ++ [Event.environmentSetup (venv_dir_of s)],
      aborted := s.environmentFails }
  else
    { events := checks, aborted := false }

/-- Result of `argparse` on the argument vector (after the program name). -/
inductive ParseResult where
  | ok (action : Option String) (qualifier : Option String) (verbose : Bool)
  | err (msg : String)
deriving Repr, DecidableEq

/-- The registered qualifier subcommands of `install` (classes `_Install.all`,
`.pip`, `.configuration`, `.systemd`, source lines 141-214). -/
def qualifier_choices : List String := ["all", "pip", "configuration", "systemd"]

/-- The argparse grammar of `Parser`/`_Install`: top-level subparsers with
dest `action` and sole choice `install`; nested subparsers with dest
`qualifier` and choices `all`, `pip`, `configuration`, `systemd`; a
`--verbose` store_true flag on `all` and `pip`.  Anything outside this
grammar makes argparse call `_Parser.error`. -/
def parse_args (argv : List String) : ParseResult :=
  match argv with
  | [] => .ok none none false
  | "install" :: rest =>
    match rest with
    | [] => .ok (some "install") none false
    | q :: opts =>
      if q = "all" ∨ q = "pip" then
        match opts with
        | [] => .ok (some "install") (some q) false
        | ["--verbose"] => .ok (some "install") (some q) true
        | extra :: _ => .err ("unrecognized arguments: " ++ extra)
      else if q = "configuration" ∨ q = "systemd" then
        match opts with
        | [] => .ok (some "install") (some q) false
        | extra :: _ => .err ("unrecognized arguments: " ++ extra)
      else
        .err ("argument qualifier: invalid choice: " ++ q)
  | action :: _ => .err ("argument action: invalid choice: " ++ action)

/-- Stands for the argparse-generated help text of the top-level parser. -/
def help_text : String :=
  "usage: linux_agent_installation.py [-h] ..."

/-- What `Parser.args` hands back to `main`: either the parsed namespace or
a `sys.exit`. -/
inductive ParsePhase where
  | parsed (action : Option String) (qualifier : Option String) (verbose : Bool)
  | exited (code : Nat)
deriving Repr, DecidableEq

/-- Method `Parser.args` (source lines 76-110) together with `_Parser.error`
(lines 47-62): with an empty argument vector the help is printed to stderr
and the process exits with status 1; when argparse rejects the input,
`_Parser.error` writes `"\nERROR: <message>\n\n"` to stderr, prints the help
to stdout and exits with status 2; otherwise the parsed namespace is
returned and nothing is written. -/
def parser_args (argv : List String) : List Event × ParsePhase :=
  if argv = [] then
    ([Event.stderr help_text], .exited 1)
  else
    match parse_args argv with
    | .err msg =>
      ([Event.stderr ("\nERROR: " ++ msg ++ "\n\n"), Event.stdout help_text],
       .exited 2)
    | .ok action qualifier verbose => ([], .parsed action qualifier verbose)

/-- Branch `args.qualifier == 'all'` of `main` (source lines 317-323). -/
def install_all (s : SysState) (pre : List Event) (verbose : Bool) : Run :=
  let t1 := pre ++ [Event.stdout "Installing everything",
                    Event.configureInstall daemon_list (pattoo_home_of s)]
  if s.configureFails then { trace := t1, outcome := .raised } else
  let t2 := t1 ++ [Event.packagesInstall s.rootDir (venv_dir_of s) verbose]
  if s.packagesFails then { trace := t2, outcome := .raised } else
  let t3 := t2 ++ [Event.systemdInstall daemon_list (template_dir_of s)
                     (installation_dir_of s)]
  if s.systemdFails then { trace := t3, outcome := .raised } else
  { trace := t3 ++ [Event.stdout "Done"], outcome := .normal }

/-- Branch `args.qualifier == 'configuration'` of `main` (lines 326-328). -/
def install_configuration (s : SysState) (pre : List Event) : Run :=
  let t1 := pre ++ [Event.stdout "Installing configuration",
                    Event.configureInstall daemon_list (pattoo_home_of s)]
  if s.configureFails then { trace := t1, outcome := .raised } else
  { trace := t1 ++ [Event.stdout "Done"], outcome := .normal }

/-- Branch `args.qualifier == 'pip'` of `main` (lines 331-333). -/
def install_pip (s : SysState) (pre : List Event) (verbose : Bool) : Run :=
  let t1 := pre ++ [Event.stdout "Installing pip packages",
                    Event.packagesInstall s.rootDir (venv_dir_of s) verbose]
  if s.packagesFails then { trace := t1, outcome := .raised } else
  { trace := t1 ++ [Event.stdout "Done"], outcome := .normal }

/-- Branch `args.qualifier == 'systemd'` of `main` (lines 336-340). -/
def install_systemd (s : SysState) (pre : List Event) : Run :=
  let t1 := pre ++ [Event.stdout "Installing and running system daemons",
                    Event.systemdInstall daemon_list (template_dir_of s)
                      (installation_dir_of s)]
  if s.systemdFails then { trace := t1, outcome := .raised } else
  { trace := t1 ++ [Event.stdout "Done"], outcome := .normal }

namespace Script

/-- Function `main` (source lines 274-347): the pre-CLI phase, then the CLI, then the
qualifier dispatch; `print('Done')` on line 347 runs after whichever branch
was taken, and the unknown/missing qualifier branch (lines 342-344) prints
the help to stderr and exits with status 1 before reaching it. -/
def main (s : SysState) (argv : List String) : Run :=
  let setup := setup_phase s
  if setup.aborted then { trace := setup.events, outcome := .raised } else
  match parser_args argv with
  | (pev, .exited code) => { trace := setup.events ++ pev, outcome := .exited code }
  | (pev, .parsed action qualifier verbose) =>
    if action = some "install" then
      match qualifier with
      | some "all" => install_all s (setup.events ++ pev) verbose
      | some "configuration" => install_configuration s (setup.events ++ pev)
      | some "pip" => install_pip s (setup.events ++ pev) verbose
      | some "systemd" => install_systemd s (setup.events ++ pev)
      | _ => { trace := setup.events ++ pev ++ [Event.stderr help_text],
               outcome := .exited 1 }
    else { trace := setup.events ++ pev, outcome := .normal }

end Script

/-- Recognizes the three installation-collaborator calls named by the spec:
configuration write, package install, systemd install. -/
def isInstallStep : Event → Bool
  | .configureInstall _ _ => true
  | .packagesInstall _ _ _ => true
  | .systemdInstall _ _ _ => true
  | _ => false

/-- Recognizes calls to the configuration collaborator. -/
def isConfigureCall : Event → Bool
  | .configureInstall _ _ => true
  | _ => false

/-- Recognizes calls to the package-install collaborator. -/
def isPackagesCall : Event → Bool
  | .packagesInstall _ _ _ => true
  | _ => false

/-- The completion message of line 347. -/
def done_ev : Event := Event.stdout "Done"

/-- A run prints `Done` only as a successful finale: if `Done` appears in the
trace then the run returned normally, `Done` is the last event, and it
appears exactly once. -/
def DoneOnlyOnSuccess (r : Run) : Prop :=
  done_ev ∈ r.trace →
    r.outcome = Outcome.normal ∧
    r.trace.getLast? = some done_ev ∧
    r.trace.count done_ev = 1

/-- A concrete system state for witnesses: a root user outside /home with
virtualenv available, no `pattoo` user record, and collaborators that
succeed. -/
def sampleState : SysState :=
  { user := "root", cwd := "/opt/work", homeEnv := "/root",
    rootDir := "/opt/pattoo-agent-linux", pattooPwDir := none,
    virtualenvInstalled := true, environmentFails := false,
    configureFails := false, packagesFails := false, systemdFails := false }

/-- A concrete system state in which the invoking user is travis. -/
def travisState : SysState :=
  { user := "travis", cwd := "/", homeEnv := "/root",
    rootDir := "/opt/pattoo-agent-linux", pattooPwDir := none,
    virtualenvInstalled := true, environmentFails := false,
    configureFails := false, packagesFails := false, systemdFails := false }

/-- A concrete system state for a non-root user who cloned the repository
under a home directory. -/
def aliceState : SysState :=
  { user := "alice", cwd := "/home/alice/repo", homeEnv := "/home/alice",
    rootDir := "/home/alice/pattoo-agent-linux", pattooPwDir := none,
    virtualenvInstalled := true, environmentFails := false,
    configureFails := false, packagesFails := false, systemdFails := false }

/-! ## Helper lemmas -/

theorem filter_installStep_setup (s : SysState) :
    (setup_phase s).events.filter isInstallStep = [] := by
  unfold setup_phase
  split_ifs with h <;>
    simp only [installation_checks, sharedLog, h, if_pos, if_neg, ite_not] <;>
    split_ifs <;> simp [isInstallStep]

theorem done_not_in_setup (s : SysState) :
    done_ev ∉ (setup_phase s).events := by
  unfold setup_phase
  split_ifs with h <;>
    simp only [installation_checks, sharedLog, h, if_pos, if_neg, ite_not] <;>
    split_ifs <;> simp [done_ev]

theorem parser_args_parsed_events (argv : List String) (pev : List Event)
    (a q : Option String) (v : Bool)
    (h : parser_args argv = (pev, ParsePhase.parsed a q v)) : pev = [] := by
  unfold parser_args at h
  split_ifs at h
  · simp at h
  · cases hp : parse_args argv <;> rw [hp] at h <;> simp_all

theorem install_configuration_doneOnly (s : SysState) (pre : List Event)
    (hpre : done_ev ∉ pre) : DoneOnlyOnSuccess (install_configuration s pre) := by
  intro hmem
  simp only [install_configuration] at hmem ⊢
  split_ifs at hmem ⊢ with h1
  · simp only [done_ev, List.mem_append, List.mem_cons, List.not_mem_nil,
      or_false] at hmem
    rcases hmem with hmem | hmem | hmem
    · exact absurd hmem hpre
    · exact absurd hmem (by simp)
    · exact absurd hmem (by simp)
  · refine ⟨rfl, List.getLast?_concat _, ?_⟩
    have h0 : List.count done_ev pre = 0 := List.count_eq_zero_of_not_mem hpre
    simp [done_ev, List.count_append, List.count_cons] at h0 ⊢
    simp [h0]

theorem install_all_doneOnly (s : SysState) (pre : List Event) (v : Bool)
    (hpre : done_ev ∉ pre) : DoneOnlyOnSuccess (install_all s pre v) := by
  intro hmem
  simp only [install_all] at hmem ⊢
  split_ifs at hmem ⊢ with h1 h2 h3
  · simp [done_ev] at hmem; exact absurd hmem hpre
  · simp [done_ev] at hmem; exact absurd hmem hpre
  · simp [done_ev] at hmem; exact absurd hmem hpre
  · refine ⟨rfl, List.getLast?_concat _, ?_⟩
    have h0 : List.count done_ev pre = 0 := List.count_eq_zero_of_not_mem hpre
    simp [done_ev, List.count_append, List.count_cons] at h0 ⊢
    simp [h0]

theorem install_pip_doneOnly (s : SysState) (pre : List Event) (v : Bool)
    (hpre : done_ev ∉ pre) : DoneOnlyOnSuccess (install_pip s pre v) := by
  intro hmem
  simp only [install_pip] at hmem ⊢
  split_ifs at hmem ⊢ with h1
  · simp [done_ev] at hmem; exact absurd hmem hpre
  · refine ⟨rfl, List.getLast?_concat _, ?_⟩
    have h0 : List.count done_ev pre = 0 := List.count_eq_zero_of_not_mem hpre
    simp [done_ev, List.count_append, List.count_cons] at h0 ⊢
    simp [h0]

theorem install_systemd_doneOnly (s : SysState) (pre : List Event)
    (hpre : done_ev ∉ pre) : DoneOnlyOnSuccess (install_systemd s pre) := by
  intro hmem
  simp only [install_systemd] at hmem ⊢
  split_ifs at hmem ⊢ with h1
  · simp [done_ev] at hmem; exact absurd hmem hpre
  · refine ⟨rfl, List.getLast?_concat _, ?_⟩
    have h0 : List.count done_ev pre = 0 := List.count_eq_zero_of_not_mem hpre
    simp [done_ev, List.count_append, List.count_cons] at h0 ⊢
    simp [h0]

theorem done_not_in_parser_events (argv : List String) (pev : List Event)
    (ph : ParsePhase) (h : parser_args argv = (pev, ph)) : done_ev ∉ pev := by
  unfold parser_args at h
  split_ifs at h
  · simp only [Prod.mk.injEq] at h
    obtain ⟨h1, h2⟩ := h
    subst h1
    simp [done_ev, help_text]
  · cases hp : parse_args argv <;> rw [hp] at h <;>
      simp only [Prod.mk.injEq] at h <;> obtain ⟨h1, h2⟩ := h <;> subst h1 <;>
      simp [done_ev, help_text]

theorem main_doneOnly (s : SysState) (argv : List String) :
    DoneOnlyOnSuccess (Script.main s argv) := by
  simp only [Script.main]
  split_ifs with hab
  · intro hmem
    exact absurd hmem (done_not_in_setup s)
  · rcases hp : parser_args argv with ⟨pev, ph⟩
    have hpev : done_ev ∉ pev := done_not_in_parser_events argv pev ph hp
    cases ph with
    | exited code =>
      dsimp only
      intro hmem
      rcases List.mem_append.mp hmem with hmem | hmem
      · exact absurd hmem (done_not_in_setup s)
      · exact absurd hmem hpev
    | parsed a q v =>
      have hpre : done_ev ∉ (setup_phase s).events ++ pev := by
        intro hmem
        rcases List.mem_append.mp hmem with hmem | hmem
        · exact absurd hmem (done_not_in_setup s)
        · exact absurd hmem hpev
      dsimp only
      split_ifs with ha
      · split
        · exact install_all_doneOnly s _ _ hpre
        · exact install_configuration_doneOnly s _ hpre
        · exact install_pip_doneOnly s _ _ hpre
        · exact install_systemd_doneOnly s _ hpre
        · intro hmem
          simp only [done_ev, List.mem_append, List.mem_cons,
            List.not_mem_nil, or_false] at hmem
          rcases hmem with (hmem | hmem) | hmem
          · exact absurd hmem (done_not_in_setup s)
          · exact absurd hmem hpev
          · simp [help_text] at hmem
      · intro hmem
        exact absurd hmem hpre

theorem setup_not_aborted (s : SysState) (henv : s.environmentFails = false) :
    (setup_phase s).aborted = false := by
  unfold setup_phase
  split_ifs <;> simp [henv]

/-- C1: for every run parsed as `install all` (with or without `--verbose`),
provided `environment_setup`, `configure.install` and `packages.install`
return without error, the installation-collaborator calls in the trace are
exactly the configuration write, then the package install, then the systemd
install, in that order, with nothing else between them. -/
theorem install_all_invokes_collaborators_in_order (s : SysState) (v : Bool)
    (henv : s.environmentFails = false)
    (hconf : s.configureFails = false)
    (hpkg : s.packagesFails = false) :
    ((Script.main s
        ("install" :: "all" :: (if v then ["--verbose"] else []))).trace).filter
        isInstallStep =
      [Event.configureInstall daemon_list (pattoo_home_of s),
       Event.packagesInstall s.rootDir (venv_dir_of s) v,
       Event.systemdInstall daemon_list (template_dir_of s)
         (installation_dir_of s)] := by
  have hp : parser_args ("install" :: "all" :: (if v then ["--verbose"] else []))
      = ([], ParsePhase.parsed (some "install") (some "all") v) := by
    cases v <;> rfl
  have hab := setup_not_aborted s henv
  simp only [Script.main, hp, hab, Bool.false_eq_true, if_false]
  simp only [install_all, hconf, hpkg, Bool.false_eq_true, if_false]
  split_ifs <;>
    simp [List.filter_append, filter_installStep_setup, isInstallStep]

/-- Witness for C1 at a concrete state and `install all` without the flag. -/
theorem install_all_invokes_collaborators_in_order_witness :
    sampleState.environmentFails = false ∧
    sampleState.configureFails = false ∧
    sampleState.packagesFails = false ∧
    ((Script.main sampleState ["install", "all"]).trace).filter isInstallStep =
      [Event.configureInstall daemon_list (pattoo_home_of sampleState),
       Event.packagesInstall sampleState.rootDir (venv_dir_of sampleState) false,
       Event.systemdInstall daemon_list (template_dir_of sampleState)
         (installation_dir_of sampleState)] :=
  ⟨rfl, rfl, rfl,
    install_all_invokes_collaborators_in_order sampleState false rfl rfl rfl⟩

/-- C2 counterexample: as stated the claim fails — `install foo` terminates
with exit status 2 (via the overridden `_Parser.error`), not 1. -/
theorem install_invalid_qualifier_counterexample :
    (Script.main sampleState ["install", "foo"]).outcome = Outcome.exited 2 ∧
    (Script.main sampleState ["install", "foo"]).outcome ≠ Outcome.exited 1 := by
  constructor <;> decide

/-- C2 (amended): for every qualifier word not in
{all, pip, configuration, systemd} (and not an option flag), `install
<qualifier>` makes argparse call `_Parser.error`, which writes the error
message to stderr, prints the usage/help text to stdout, and terminates with
exit status 2 — non-zero, but 2 rather than the claimed 1. -/
theorem install_invalid_qualifier_exits_2 (s : SysState) (q : String)
    (henv : s.environmentFails = false)
    (hq : q ∉ qualifier_choices)
    (hdash : ¬ strStartsWith q "-") :
    (Script.main s ["install", q]).outcome = Outcome.exited 2 ∧
    Event.stdout help_text ∈ (Script.main s ["install", q]).trace ∧
    Event.stderr ("\nERROR: argument qualifier: invalid choice: " ++ q ++ "\n\n")
      ∈ (Script.main s ["install", q]).trace := by
  simp only [qualifier_choices, List.mem_cons, List.not_mem_nil, or_false,
    not_or] at hq
  obtain ⟨h1, h2, h3, h4⟩ := hq
  have hp : parser_args ["install", q] =
      ([Event.stderr ("\nERROR: argument qualifier: invalid choice: " ++ q ++ "\n\n"),
        Event.stdout help_text], ParsePhase.exited 2) := by
    unfold parser_args parse_args
    simp [h1, h2, h3, h4, String.append_assoc]
    rw [← String.append_assoc]
    congr 1
  have hab := setup_not_aborted s henv
  simp only [Script.main, hp, hab, Bool.false_eq_true, if_false]
  refine ⟨trivial, ?_, ?_⟩ <;> simp [List.mem_append]

/-- Witness for the amended C2 at a concrete state and qualifier `foo`. -/
theorem install_invalid_qualifier_exits_2_witness :
    sampleState.environmentFails = false ∧
    "foo" ∉ qualifier_choices ∧
    ¬ strStartsWith "foo" "-" ∧
    ((Script.main sampleState ["install", "foo"]).outcome = Outcome.exited 2 ∧
     Event.stdout help_text ∈ (Script.main sampleState ["install", "foo"]).trace ∧
     Event.stderr ("\nERROR: argument qualifier: invalid choice: " ++ "foo" ++ "\n\n")
       ∈ (Script.main sampleState ["install", "foo"]).trace) :=
  ⟨rfl, by decide, by decide,
    install_invalid_qualifier_exits_2 sampleState "foo" rfl (by decide) (by decide)⟩

theorem filter_configureCall_setup (s : SysState) :
    (setup_phase s).events.filter isConfigureCall = [] := by
  unfold setup_phase
  split_ifs with h <;>
    simp only [installation_checks, sharedLog, h, if_pos, if_neg, ite_not] <;>
    split_ifs <;> simp [isConfigureCall]

theorem filter_packagesCall_setup (s : SysState) :
    (setup_phase s).events.filter isPackagesCall = [] := by
  unfold setup_phase
  split_ifs with h <;>
    simp only [installation_checks, sharedLog, h, if_pos, if_neg, ite_not] <;>
    split_ifs <;> simp [isPackagesCall]

/-- C3 counterexample: with a user database lacking a `pattoo` entry but the
invoking user named travis, `install configuration` passes `~/pattoo`
(here `/root/pattoo`) — not `/home/pattoo` — to the configuration
collaborator, because `main` only consults `get_pattoo_home` for non-travis
users (source lines 297-305). -/
theorem install_configuration_travis_counterexample :
    travisState.pattooPwDir = none ∧
    ((Script.main travisState ["install", "configuration"]).trace).filter
        isConfigureCall =
      [Event.configureInstall daemon_list "/root/pattoo"] ∧
    Event.configureInstall daemon_list "/home/pattoo"
      ∉ (Script.main travisState ["install", "configuration"]).trace := by
  refine ⟨rfl, ?_, ?_⟩ <;> decide

/-- C3 (amended): given a user database with no `pattoo` entry, an invoking
user other than travis, and collaborator calls that return without error,
the run with CLI arguments `install configuration` calls the configuration
collaborator exactly once, with the fixed three-element daemon list and the
home directory `/home/pattoo`, and then prints `Done` as its final output. -/
theorem install_configuration_run (s : SysState)
    (huser : s.user ≠ "travis")
    (hdb : s.pattooPwDir = none)
    (henv : s.environmentFails = false)
    (hconf : s.configureFails = false) :
    ((Script.main s ["install", "configuration"]).trace).filter isConfigureCall =
      [Event.configureInstall
        ["pattoo_agent_linux_autonomousd", "pattoo_agent_linux_spoked",
         "pattoo_agent_linux_hubd"] "/home/pattoo"] ∧
    (Script.main s ["install", "configuration"]).trace.getLast? =
      some (Event.stdout "Done") := by
  have hp : parser_args ["install", "configuration"] =
      ([], ParsePhase.parsed (some "install") (some "configuration") false) := rfl
  have hab := setup_not_aborted s henv
  have hhome : pattoo_home_of s = "/home/pattoo" := by
    simp [pattoo_home_of, huser, hdb, get_pattoo_home]
  simp only [Script.main, hp, hab, Bool.false_eq_true, if_false]
  simp only [install_configuration, hconf, Bool.false_eq_true, if_false]
  refine ⟨?_, List.getLast?_concat _⟩
  simp [List.filter_append, filter_configureCall_setup, isConfigureCall,
    hhome, daemon_list]

/-- Witness for the amended C3 at a concrete non-travis state. -/
theorem install_configuration_run_witness :
    sampleState.user ≠ "travis" ∧ sampleState.pattooPwDir = none ∧
    sampleState.environmentFails = false ∧ sampleState.configureFails = false ∧
    (((Script.main sampleState ["install", "configuration"]).trace).filter
        isConfigureCall =
      [Event.configureInstall
        ["pattoo_agent_linux_autonomousd", "pattoo_agent_linux_spoked",
         "pattoo_agent_linux_hubd"] "/home/pattoo"] ∧
     (Script.main sampleState ["install", "configuration"]).trace.getLast? =
      some (Event.stdout "Done")) :=
  ⟨by decide, rfl, rfl, rfl,
    install_configuration_run sampleState (by decide) rfl rfl rfl⟩

/-- C4: `get_pattoo_home` returns `/home/pattoo` when the `pattoo` user
record is absent (the KeyError case, without raising — the model is a total
function because the source catches the lookup's only exception), returns
`/home/pattoo` when the record's home directory is the sentinel
`/nonexistent`, and otherwise returns the record's home directory. -/
theorem get_pattoo_home_resolution (d : String) (hd : d ≠ "/nonexistent") :
    get_pattoo_home none = "/home/pattoo" ∧
    get_pattoo_home (some "/nonexistent") = "/home/pattoo" ∧
    get_pattoo_home (some d) = d := by
  refine ⟨rfl, rfl, ?_⟩
  simp [get_pattoo_home, hd]

/-- Witness for C4 at the concrete home directory `/home/alice`. -/
theorem get_pattoo_home_resolution_witness :
    ("/home/alice" : String) ≠ "/nonexistent" ∧
    (get_pattoo_home none = "/home/pattoo" ∧
     get_pattoo_home (some "/nonexistent") = "/home/pattoo" ∧
     get_pattoo_home (some "/home/alice") = "/home/alice") :=
  ⟨by decide, get_pattoo_home_resolution "/home/alice" (by decide)⟩

/-- C5: invoked with no arguments, the run prints the usage/help text to
standard error, exits with status exactly 1, and no installation
collaborator (configuration write, package install, systemd install) is
invoked; only the pre-CLI phase (checks and environment setup, which is
assumed not to fail) precedes the exit. -/
theorem no_args_exits_1 (s : SysState) (henv : s.environmentFails = false) :
    (Script.main s []).outcome = Outcome.exited 1 ∧
    Event.stderr help_text ∈ (Script.main s []).trace ∧
    ((Script.main s []).trace).filter isInstallStep = [] := by
  have hp : parser_args [] = ([Event.stderr help_text], ParsePhase.exited 1) := rfl
  have hab := setup_not_aborted s henv
  simp only [Script.main, hp, hab, Bool.false_eq_true, if_false]
  refine ⟨trivial, ?_, ?_⟩
  · simp
  · simp [List.filter_append, filter_installStep_setup, isInstallStep]

/-- Witness for C5 at a concrete state. -/
theorem no_args_exits_1_witness :
    sampleState.environmentFails = false ∧
    ((Script.main sampleState []).outcome = Outcome.exited 1 ∧
     Event.stderr help_text ∈ (Script.main sampleState []).trace ∧
     ((Script.main sampleState []).trace).filter isInstallStep = []) :=
  ⟨rfl, no_args_exits_1 sampleState rfl⟩

/-- C6: for every run parsed as `install pip`, the value of the `--verbose`
flag (true when present, false when absent) is passed unchanged as the
verbosity argument of the single `packages.install` call. -/
theorem install_pip_verbose_propagation (s : SysState) (v : Bool)
    (henv : s.environmentFails = false) :
    ((Script.main s
        ("install" :: "pip" :: (if v then ["--verbose"] else []))).trace).filter
        isPackagesCall =
      [Event.packagesInstall s.rootDir (venv_dir_of s) v] := by
  have hp : parser_args ("install" :: "pip" :: (if v then ["--verbose"] else []))
      = ([], ParsePhase.parsed (some "install") (some "pip") v) := by
    cases v <;> rfl
  have hab := setup_not_aborted s henv
  simp only [Script.main, hp, hab, Bool.false_eq_true, if_false]
  simp only [install_pip]
  split_ifs <;>
    simp [List.filter_append, filter_packagesCall_setup, isPackagesCall]

/-- Witness for C6 at a concrete state, with the flag present. -/
theorem install_pip_verbose_propagation_witness :
    sampleState.environmentFails = false ∧
    ((Script.main sampleState ["install", "pip", "--verbose"]).trace).filter
        isPackagesCall =
      [Event.packagesInstall sampleState.rootDir (venv_dir_of sampleState) true] :=
  ⟨rfl, install_pip_verbose_propagation sampleState true rfl⟩

/-- C7: the literal `Done` message is printed only as the successful finale
of a run: whenever `Done` appears in the trace, the run returned normally
(so no installation step raised and a valid qualifier was selected), `Done`
is the very last event — in particular after every collaborator call of the
selected qualifier — and it is printed exactly once. -/
theorem done_printed_only_on_success (s : SysState) (argv : List String)
    (h : done_ev ∈ (Script.main s argv).trace) :
    (Script.main s argv).outcome = Outcome.normal ∧
    (Script.main s argv).trace.getLast? = some done_ev ∧
    (Script.main s argv).trace.count done_ev = 1 :=
  main_doneOnly s argv h

/-- Witness for C7 at a concrete successful `install systemd` run. -/
theorem done_printed_only_on_success_witness :
    done_ev ∈ (Script.main sampleState ["install", "systemd"]).trace ∧
    ((Script.main sampleState ["install", "systemd"]).outcome = Outcome.normal ∧
     (Script.main sampleState ["install", "systemd"]).trace.getLast? =
       some done_ev ∧
     (Script.main sampleState ["install", "systemd"]).trace.count done_ev = 1) :=
  ⟨by decide,
    done_printed_only_on_success sampleState ["install", "systemd"] (by decide)⟩

/-- C8 counterexample: on the unrecognized qualifier `foo` the parser's
error path does write to standard output — `_Parser.error` calls
`self.print_help()` with no file argument, which prints the help text to
stdout, so not every byte goes to standard error. -/
theorem parser_error_writes_stdout_counterexample :
    Event.stdout help_text ∈ (parser_args ["install", "foo"]).fst := by decide

/-- C8 (amended): the CLI parser's error and help handling has no side
effect beyond writing to the standard streams, but the destination depends
on the path: a successful parse writes nothing; the empty argument vector
sends the help text to standard error; a malformed or unrecognized input
sends the error message to standard error and the help text to standard
output. -/
theorem parser_args_effects (argv : List String) :
    (parser_args argv).fst = [] ∨
    (parser_args argv).fst = [Event.stderr help_text] ∨
    ∃ msg, (parser_args argv).fst =
      [Event.stderr ("\nERROR: " ++ msg ++ "\n\n"), Event.stdout help_text] := by
  unfold parser_args
  split_ifs
  · exact Or.inr (Or.inl rfl)
  · cases hp : parse_args argv with
    | ok a q v => exact Or.inl (by simp)
    | err msg => exact Or.inr (Or.inr ⟨msg, by simp⟩)

/-- C9: for a non-root, non-travis invoking user working under /home (with
virtualenv importable), `installation_checks` emits exactly the two log
messages — it neither halts the process nor raises — and execution
continues into the installation steps: the same state completes an
`install configuration` run normally, including the configuration
collaborator call. -/
theorem checks_log_and_continue (s : SysState)
    (hu1 : s.user ≠ "travis") (hu2 : s.user ≠ "root")
    (hc : strStartsWith s.cwd "/home" = true)
    (hv : s.virtualenvInstalled = true)
    (henv : s.environmentFails = false)
    (hconf : s.configureFails = false) :
    installation_checks s = [Event.log root_log_msg, Event.log homedir_log_msg] ∧
    (Script.main s ["install", "configuration"]).outcome = Outcome.normal ∧
    Event.configureInstall daemon_list (pattoo_home_of s)
      ∈ (Script.main s ["install", "configuration"]).trace := by
  have hchecks : installation_checks s =
      [Event.log root_log_msg, Event.log homedir_log_msg] := by
    unfold installation_checks
    simp [hu1, hu2, hc, hv, sharedLog]
  have hp : parser_args ["install", "configuration"] =
      ([], ParsePhase.parsed (some "install") (some "configuration") false) := rfl
  have hab := setup_not_aborted s henv
  refine ⟨hchecks, ?_, ?_⟩ <;>
    simp only [Script.main, hp, hab, Bool.false_eq_true, if_false] <;>
    simp only [install_configuration, hconf, Bool.false_eq_true, if_false]
  · rfl
  · simp

/-- Witness for C9 at a concrete non-root user under /home. -/
theorem checks_log_and_continue_witness :
    aliceState.user ≠ "travis" ∧ aliceState.user ≠ "root" ∧
    strStartsWith aliceState.cwd "/home" = true ∧
    aliceState.virtualenvInstalled = true ∧
    aliceState.environmentFails = false ∧
    aliceState.configureFails = false ∧
    (installation_checks aliceState =
        [Event.log root_log_msg, Event.log homedir_log_msg] ∧
     (Script.main aliceState ["install", "configuration"]).outcome =
        Outcome.normal ∧
     Event.configureInstall daemon_list (pattoo_home_of aliceState)
        ∈ (Script.main aliceState ["install", "configuration"]).trace) :=
  ⟨by decide, by decide, by decide, rfl, rfl, rfl,
    checks_log_and_continue aliceState (by decide) (by decide) (by decide)
      rfl rfl rfl⟩

/-- C10: when the invoking user is travis, `installation_checks` performs no
action at all — no log, no directory check, no virtualenv check or fallback
install — regardless of the rest of the state. -/
theorem travis_checks_noop (s : SysState) (h : s.user = "travis") :
    installation_checks s = [] := by
  unfold installation_checks
  simp [h]

/-- Witness for C10 at a concrete travis state. -/
theorem travis_checks_noop_witness :
    travisState.user = "travis" ∧ installation_checks travisState = [] :=
  ⟨rfl, travis_checks_noop travisState rfl⟩
